import Mathlib

/-!
Verification of the GEE analysis frontend API-integration layer
(src/api-integration.js) against its natural-language specification.

The JavaScript is shallowly embedded as pure Lean functions:
 - JSON values become the inductive `Json`, with JavaScript truthiness
   (`Json.truthy`) and property lookup (`Json.lookup`, returning `none`
   for JavaScript `undefined`).
 - The network is an environment function `Nat → AjaxOutcome` giving the
   outcome of the n-th jQuery ajax call; a call counter in the world state
   indexes into it.
 - DOM reads become fields of a `Dom` record; the Leaflet map library and
   the `calculateAreaFromBounds` helper (defined outside this file's
   source, in the host HTML page) are environment-supplied functions.
 - Observable side effects (loading overlay, alerts, network calls, map
   mutations, file download) become an `Event` trace accumulated in the
   world state `W`.
 - A JavaScript exception escaping a function is modelled by an
   `Except String` result carrying the error kind; the world at the throw
   point is still returned, so traces of partially-run bodies are exact.
-/

/-- JSON values as produced by jQuery ajax with `dataType: json`.
JavaScript `undefined` is not a JSON value; absent object fields are
modelled by `Json.lookup` returning `none`. -/
inductive Json where
  | null
  | bool (b : Bool)
  | num (n : Int)
  | str (s : String)
  | arr (elems : List Json)
  | obj (fields : List (String × Json))
deriving Repr, Inhabited

/-- JavaScript truthiness of a JSON value: `null`, `false`, `0` and the
empty string are falsy; every object and array is truthy. -/
def Json.truthy : Json → Bool
  | .null => false
  | .bool b => b
  | .num n => n != 0
  | .str s => s != ""
  | .arr _ => true
  | .obj _ => true

/-- Property access `v[key]` on a JSON value: defined only on objects
(first binding wins, as in a parsed-JSON object); on every other value the
properties read by this code are JavaScript `undefined`, i.e. `none`. -/
def Json.lookup : Json → String → Option Json
  | .obj fields, key => fields.lookup key
  | _, _ => none

mutual

/-- JavaScript string coercion, as used by `+` string concatenation and
template literals in the source. Arrays join their elements with commas;
objects stringify to the generic object tag. -/
def jsToString : Json → String
  | .null => "null"
  | .bool true => "true"
  | .bool false => "false"
  | .num n => toString n
  | .str s => s
  | .arr elems => String.intercalate "," (jsToStringList elems)
  | .obj _ => "[object Object]"

def jsToStringList : List Json → List String
  | [] => []
  | x :: xs => jsToString x :: jsToStringList xs

end

/-- Coercion of a possibly-`undefined` value, as in a template literal. -/
def jsDisplay : Option Json → String
  | none => "undefined"
  | some v => jsToString v

/-- Outcome of one jQuery `$.ajax` call: resolution with a parsed JSON
body, or rejection with a jqXHR carrying an optional parsed JSON error
body and an optional status text. -/
inductive AjaxOutcome where
  | ok (response : Json)
  | err (responseJSON : Option Json) (statusText : Option String)
deriving Repr

/-- The tagged request result of the transport wrapper:
`{success: true, data}` or `{success: false, error}`.  The `error` field
holds whatever JavaScript value the fallback chain selected (the
structured error field can be any JSON value). -/
inductive RequestResult where
  | ok (data : Json)
  | fail (error : Json)
deriving Repr

/-- Observable side effects of the integration layer, in program order. -/
inductive Event where
  | showLoading (title subtitle : String)
  | hideLoading
  | netCall (url : String)
  | alert (message severity : String)
  | populateSelect (id : String)
  | clearLayers
  | addLayer
  | fitBounds
  | showAOIInfo
  | displayResults
  | scrollToResults
  | download (filename : String) (content : Json)
  | consoleError (tag : String)
deriving Repr

/-- A Leaflet bounds object (west/south/east/north accessors). The
numeric type is irrelevant to every claim; `Int` keeps it decidable. -/
structure Bounds where
  west : Int
  south : Int
  east : Int
  north : Int
deriving Repr, DecidableEq

/-- The current area of interest, as assembled by
`loadRegionGeometryFromAPI` (field names follow the source object). -/
structure AOI where
  type : String
  name : String
  geometry : Bounds
  area : Int
  geojson : Option Json
deriving Repr

/-- DOM values read by the integration layer, one field per
selector/accessor used in the source. -/
structure Dom where
  yearText : String
  startMonthVal : String
  endMonthVal : String
  cloudText : String
  analysisTypeVal : String
  dwModeVal : String
  dynamicWorldChecked : Bool
  esaWorldChecked : Bool
  esriLandChecked : Bool
  citySelectedText : String
  provinceSelectedText : String
  selectedIndices : List String

/-- The ambient environment: ajax outcomes by call index, DOM state, the
external map library (`L.geoJSON(...).getBounds()`) and the host page's
`calculateAreaFromBounds`, and the clock. -/
structure Env where
  outcomes : Nat → AjaxOutcome
  dom : Dom
  boundsOf : Json → Bounds
  areaOf : Bounds → Int
  nowIso : String
  nowMillis : Int

/-- The `API_CONFIG` object (src lines 7-11). -/
structure ApiConfig where
  baseURL : String
  timeout : Nat
  retries : Nat
deriving Repr, DecidableEq

def API_CONFIG : ApiConfig :=
  { baseURL := "http://localhost:5000/api", timeout := 120000, retries := 3 }

/-- Mutable world state threaded through the orchestration layer:
the global `currentAOI`, the global `analysisResults` object (an
association list whose values may be JavaScript `undefined`, i.e.
`none`; keys count toward `Object.keys` either way), the drawn map
layers, the number of ajax calls performed so far, and the accumulated
event trace. -/
structure W where
  currentAOI : Option AOI
  analysisResults : List (String × Option Json)
  layers : List Json
  calls : Nat
  trace : List Event

def W.init : W :=
  { currentAOI := none, analysisResults := [], layers := [], calls := 0, trace := [] }

/-- Append one observable event to the trace. -/
def emit (w : W) (e : Event) : W :=
  { w with trace := w.trace ++ [e] }

@[simp] theorem emit_currentAOI (w : W) (e : Event) : (emit w e).currentAOI = w.currentAOI := rfl
@[simp] theorem emit_analysisResults (w : W) (e : Event) : (emit w e).analysisResults = w.analysisResults := rfl
@[simp] theorem emit_layers (w : W) (e : Event) : (emit w e).layers = w.layers := rfl
@[simp] theorem emit_calls (w : W) (e : Event) : (emit w e).calls = w.calls := rfl
@[simp] theorem emit_trace (w : W) (e : Event) : (emit w e).trace = w.trace ++ [e] := rfl

/-- The fallback applied when the structured error field is absent or
falsy: `error.statusText || 'Network error'` (src line 49). -/
def statusFallback : Option String → Json
  | some s => if s = "" then .str "Network error" else .str s
  | none => .str "Network error"

/-- `GEEApiClient.request` (src lines 23-52): perform one ajax call at
`baseURL + endpoint`; on resolution return `{success: true, data}`; on
rejection log the error and return `{success: false, error}` with
`error = error.responseJSON?.error || error.statusText || 'Network error'`
(JavaScript `||`, so falsy values fall through).  The `cfg.retries`
field is never read.  Totality of this function is the embedding of
"never throws past its own boundary": every outcome maps to a tagged
result. -/
def GEEApiClient.request (cfg : ApiConfig) (outcomes : Nat → AjaxOutcome)
    (endpoint : String) (w : W) : RequestResult × W :=
  let url := cfg.baseURL ++ endpoint
  let o := outcomes w.calls
  let w1 : W := { w with calls := w.calls + 1, trace := w.trace ++ [Event.netCall url] }
  match o with
  | .ok response => (.ok response, w1)
  | .err responseJSON statusText =>
      let e : Json :=
        match responseJSON.bind (Json.lookup · "error") with
        | some v => if v.truthy then v else statusFallback statusText
        | none => statusFallback statusText
      (.fail e, emit w1 (.consoleError "API Request Error"))

/-- `loadProvincesFromAPI` (src lines 132-152): show the loading overlay,
fetch the province list, hide the overlay, then populate the selector and
return the data on success, or alert and return `{}` on failure.
`Object.entries(response.data)` throws a TypeError when the parsed body
is JSON `null`, so that case escapes as an exception. -/
def loadProvincesFromAPI (env : Env) (w : W) : Except String Json × W :=
  let w := emit w (.showLoading "Loading provinces..." "Fetching data from server")
  let (r, w) := GEEApiClient.request API_CONFIG env.outcomes "/regions/provinces" w
  let w := emit w .hideLoading
  match r with
  | .ok d =>
      match d with
      | .null => (.error "TypeError", w)
      | _ => (.ok d, emit w (.populateSelect "provinceSelect"))
  | .fail e =>
      (.ok (.obj []), emit w (.alert ("Failed to load provinces: " ++ jsToString e) "danger"))

/-- `loadCitiesFromAPI` (src lines 157-178): identical shape to province
loading, with the province code in the query string. -/
def loadCitiesFromAPI (env : Env) (provinceCode : String) (w : W) : Except String Json × W :=
  let w := emit w (.showLoading "Loading cities..." "Fetching data from server")
  let (r, w) := GEEApiClient.request API_CONFIG env.outcomes
    ("/regions/cities?province_code=" ++ provinceCode) w
  let w := emit w .hideLoading
  match r with
  | .ok d =>
      match d with
      | .null => (.error "TypeError", w)
      | _ => (.ok d, emit w (.populateSelect "citySelect"))
  | .fail e =>
      (.ok (.obj []), emit w (.alert ("Failed to load cities: " ++ jsToString e) "danger"))

/-- `loadRegionGeometryFromAPI` (src lines 183-225): fetch the region
geometry; on a successful response with truthy data, clear the drawn
layers, add the GeoJSON layer, fit bounds, replace `currentAOI` wholesale
(name from the selected city option text, falling back to the province
option text via JavaScript `||`), and alert success; otherwise alert
`'Failed to load region geometry: ' + (response.error || 'Unknown error')`
and return `null` leaving all state untouched. -/
def loadRegionGeometryFromAPI (env : Env) (endpoint code : String) (w : W) :
    Option Json × W :=
  let w := emit w (.showLoading "Loading region geometry..." "Fetching boundary data")
  let (r, w) := GEEApiClient.request API_CONFIG env.outcomes
    ("/regions/geometry?endpoint=" ++ endpoint ++ "&code=" ++ code) w
  let w := emit w .hideLoading
  match r with
  | .ok d =>
      if d.truthy then
        let w := emit w .clearLayers
        let w := { w with layers := [d], trace := w.trace ++ [Event.addLayer, Event.fitBounds] }
        let bounds := env.boundsOf d
        let area := env.areaOf bounds
        let name :=
          if env.dom.citySelectedText = "" then env.dom.provinceSelectedText
          else env.dom.citySelectedText
        let aoi : AOI :=
          { type := "admin", name := name, geometry := bounds, area := area, geojson := some d }
        let w := { w with currentAOI := some aoi }
        let w := emit (emit w .showAOIInfo) (.alert "Region loaded successfully!" "success")
        (some d, w)
      else
        (none, emit w (.alert ("Failed to load region geometry: " ++ "Unknown error") "danger"))
  | .fail e =>
      let msg := if e.truthy then jsToString e else "Unknown error"
      (none, emit w (.alert ("Failed to load region geometry: " ++ msg) "danger"))

/-- `runVegetationAnalysisAPI` (src lines 230-263): abort with a warning
alert and `null` when no AOI is selected; otherwise show the loading
overlay, post the analysis request, hide the overlay, and branch.  On
success the alert interpolates `response.data.collection_size`, which
throws a TypeError when the parsed body is JSON `null`; on failure alert
danger and return `null`. -/
def runVegetationAnalysisAPI (env : Env) (w : W) : Except String (Option Json) × W :=
  match w.currentAOI with
  | none => (.ok none, emit w (.alert "Please select an AOI first" "warning"))
  | some _ =>
      let w := emit w (.showLoading "Analyzing vegetation indices..." "Processing Sentinel-2 imagery")
      let (r, w) := GEEApiClient.request API_CONFIG env.outcomes "/analyze/vegetation" w
      let w := emit w .hideLoading
      match r with
      | .ok d =>
          match d with
          | .null => (.error "TypeError", w)
          | _ =>
              let msg := "Analysis complete! Found " ++ jsDisplay (d.lookup "collection_size") ++ " images"
              (.ok (some d), emit w (.alert msg "success"))
      | .fail e =>
          (.ok none, emit w (.alert ("Vegetation analysis failed: " ++ jsToString e) "danger"))

/-- `runLandCoverAnalysisAPI` (src lines 268-304): abort with a warning
alert and `null` when no AOI is selected; otherwise show the loading
overlay, post the analysis request, hide the overlay, and alert
success/failure.  No property of the response body is accessed, so this
function cannot throw. -/
def runLandCoverAnalysisAPI (env : Env) (w : W) : Option Json × W :=
  match w.currentAOI with
  | none => (none, emit w (.alert "Please select an AOI first" "warning"))
  | some _ =>
      let w := emit w (.showLoading "Analyzing land cover..." "Processing land cover datasets")
      let (r, w) := GEEApiClient.request API_CONFIG env.outcomes "/analyze/landcover" w
      let w := emit w .hideLoading
      match r with
      | .ok d => (some d, emit w (.alert "Land cover analysis complete!" "success"))
      | .fail e =>
          (none, emit w (.alert ("Land cover analysis failed: " ++ jsToString e) "danger"))

/-- `runCompleteAnalysis` (src lines 309-351): abort with a warning alert
when no AOI is selected; otherwise reset `analysisResults` to `{}`, run
the vegetation sub-operation when the selected analysis type is
`vegetation` or `combined`, keep its result under three keys when the
returned value is truthy, then run the land-cover sub-operation when the
type is `landcover` or `combined`, keep its result when truthy, and
display (and scroll to) the results exactly when `Object.keys` of the
accumulator is non-empty.  Any exception thrown inside the try block is
caught, logged, and surfaced as a generic danger alert. -/
def runCompleteAnalysis (env : Env) (w : W) : W :=
  match w.currentAOI with
  | none => emit w (.alert "Please select an AOI first" "warning")
  | some _ =>
      let analysisType := env.dom.analysisTypeVal
      let w := { w with analysisResults := [] }
      let (vegRes, w) :=
        if analysisType = "vegetation" || analysisType = "combined" then
          runVegetationAnalysisAPI env w
        else (.ok none, w)
      match vegRes with
      | .error _ =>
          emit (emit w (.consoleError "Analysis error")) (.alert "An error occurred during analysis" "danger")
      | .ok vegData =>
          let w :=
            match vegData with
            | some d =>
                if d.truthy then
                  { w with analysisResults := w.analysisResults ++
                      [("vegetation", d.lookup "indices"),
                       ("rgb_tile_url", d.lookup "rgb_tile_url"),
                       ("collection_size", d.lookup "collection_size")] }
                else w
            | none => w
          let (lcData, w) :=
            if analysisType = "landcover" || analysisType = "combined" then
              runLandCoverAnalysisAPI env w
            else (none, w)
          let w :=
            match lcData with
            | some d =>
                if d.truthy then
                  { w with analysisResults := w.analysisResults ++ [("landcover", some d)] }
                else w
            | none => w
          if w.analysisResults.length > 0 then
            emit (emit w .displayResults) .scrollToResults
          else w

/-- JavaScript whitespace, the characters matched by the regex class
`\s` that can occur in this embedding's strings. -/
def isJsWhitespace (c : Char) : Bool :=
  c = ' ' || c = '\t' || c = '\n' || c = '\r' || c = '\x0b' || c = '\x0c'

/-- Character-list core of `String.replace(/\s+/g, '_')`: each maximal
run of whitespace becomes a single underscore.  The Boolean argument
records whether the previous character was inside a whitespace run (so
the run has already produced its underscore). -/
def replaceWsGo : Bool → List Char → List Char
  | _, [] => []
  | lastWs, c :: rest =>
      if isJsWhitespace c then
        if lastWs then replaceWsGo true rest
        else '_' :: replaceWsGo true rest
      else c :: replaceWsGo false rest

/-- `name.replace(/\s+/g, '_')` (src line 432). -/
def replaceWsRuns (s : String) : String :=
  ⟨replaceWsGo false s.data⟩

/-- `downloadStatisticsReal` (src lines 410-437): build the statistics
object from the current AOI, DOM values, and the accumulated results
(keys whose value is JavaScript `undefined` are dropped by
`JSON.stringify`), trigger a download of it under
`gee_analysis_<name with whitespace runs as underscores>_<epoch millis>.json`,
and alert success.  `currentAOI.name` is dereferenced without a guard, so
with no AOI selected the function throws a TypeError before any
observable effect. -/
def downloadStatisticsReal (env : Env) (w : W) : Except String Unit × W :=
  match w.currentAOI with
  | none => (.error "TypeError", w)
  | some aoi =>
      let stats : Json := .obj
        [("analysis_date", .str env.nowIso),
         ("region", .str aoi.name),
         ("area_km2", .num aoi.area),
         ("year", .str env.dom.yearText),
         ("analysis_type", .str env.dom.analysisTypeVal),
         ("parameters", .obj
           [("date_range", .obj
             [("start_month", .str env.dom.startMonthVal),
              ("end_month", .str env.dom.endMonthVal)]),
            ("cloud_threshold", .str env.dom.cloudText)]),
         ("results", .obj (w.analysisResults.filterMap
           (fun kv => kv.2.map (fun v => (kv.1, v)))))]
      let filename :=
        "gee_analysis_" ++ replaceWsRuns aoi.name ++ "_" ++ toString env.nowMillis ++ ".json"
      let w := emit (emit w (.download filename stats)) (.alert "Statistics downloaded successfully!" "success")
      (.ok (), w)

/-- Boolean discriminator for network-call events. -/
def Event.isNetCall : Event → Bool
  | .netCall _ => true
  | _ => false

/-- Boolean discriminator for the hide-loading event. -/
def Event.isHide : Event → Bool
  | .hideLoading => true
  | _ => false

/-- The amended loading-lifecycle shape: the trace opens with the
loading overlay being shown, then the single network call, then exactly
one hide of the overlay; every remaining event belongs to the
success/failure branch and contains no further hide. -/
def hidesOnceAfterCall (t : List Event) : Bool :=
  match t with
  | .showLoading _ _ :: .netCall _ :: .hideLoading :: rest =>
      rest.all (fun e => !Event.isHide e)
  | .showLoading _ _ :: .netCall _ :: .consoleError _ :: .hideLoading :: rest =>
      rest.all (fun e => !Event.isHide e)
  | _ => false

/-- A concrete DOM state used to instantiate universally quantified
theorems at closed inputs. -/
def domEx : Dom :=
  { yearText := "2023", startMonthVal := "1", endMonthVal := "12",
    cloudText := "20", analysisTypeVal := "combined", dwModeVal := "annual",
    dynamicWorldChecked := true, esaWorldChecked := false, esriLandChecked := false,
    citySelectedText := "Banjarmasin", provinceSelectedText := "South Kalimantan",
    selectedIndices := ["NDVI"] }

/-- A concrete environment with a chosen outcome stream and analysis
type. -/
def envOf (outs : Nat → AjaxOutcome) (analysisType : String) : Env :=
  { outcomes := outs, dom := { domEx with analysisTypeVal := analysisType },
    boundsOf := fun _ => { west := 114, south := -4, east := 116, north := -2 },
    areaOf := fun _ => 38744, nowIso := "2023-06-01T00:00:00.000Z",
    nowMillis := 1685577600000 }

/-- A concrete selected AOI. -/
def aoiEx : AOI :=
  { type := "admin", name := "South Kalimantan",
    geometry := { west := 114, south := -4, east := 116, north := -2 },
    area := 38744, geojson := none }

/-- An initial world with `aoiEx` selected. -/
def wAoi : W :=
  { W.init with currentAOI := some aoiEx }

/-- The full URL of the vegetation-analysis endpoint. -/
def vegetationUrl : String := API_CONFIG.baseURL ++ "/analyze/vegetation"

/-- The full URL of the land-cover-analysis endpoint. -/
def landCoverUrl : String := API_CONFIG.baseURL ++ "/analyze/landcover"

/-- Boolean discriminator for a network call to a given URL. -/
def Event.isCallTo (u : String) : Event → Bool
  | .netCall v => v == u
  | _ => false

/-- C1 counterexample: the claim says that whenever the JSON error body
contains an `error` field the wrapper returns exactly that value.  With
the body `{error: ""}` and status text `"Not Found"`, the field is
present (lookup yields the empty string) yet the wrapper returns
`"Not Found"`, because JavaScript `||` treats the empty string as falsy. -/
theorem C1_counterexample :
    (GEEApiClient.request API_CONFIG
      (fun _ => .err (some (.obj [("error", .str "")])) (some "Not Found"))
      "/health" W.init).1 = .fail (.str "Not Found")
    ∧ (Json.obj [("error", Json.str "")]).lookup "error" = some (Json.str "")
    ∧ Json.str "Not Found" ≠ Json.str "" := by
  refine ⟨rfl, rfl, ?_⟩
  intro h
  injection h with h
  exact absurd h (by decide)

/-- C1 (amended): the transport wrapper never throws (it is a total
function into tagged results); on a resolved call it returns
`{success: true, data}` with the parsed body; on a rejected call it
returns `{success: false, error}` where `error` is chosen in priority
order from the *truthy* structured error field of the JSON error body,
else the *non-empty* transport status text, else `'Network error'`
(falsy values fall through the JavaScript `||` chain). -/
theorem C1_request_error_priority (cfg : ApiConfig) (outcomes : Nat → AjaxOutcome)
    (ep : String) (w : W) :
    (∀ d, outcomes w.calls = .ok d →
        (GEEApiClient.request cfg outcomes ep w).1 = .ok d)
    ∧ (∀ rj st v, outcomes w.calls = .err rj st →
        rj.bind (Json.lookup · "error") = some v → v.truthy →
        (GEEApiClient.request cfg outcomes ep w).1 = .fail v)
    ∧ (∀ rj st s, outcomes w.calls = .err rj st →
        (∀ v, rj.bind (Json.lookup · "error") = some v → v.truthy = false) →
        st = some s → s ≠ "" →
        (GEEApiClient.request cfg outcomes ep w).1 = .fail (.str s))
    ∧ (∀ rj st, outcomes w.calls = .err rj st →
        (∀ v, rj.bind (Json.lookup · "error") = some v → v.truthy = false) →
        (st = none ∨ st = some "") →
        (GEEApiClient.request cfg outcomes ep w).1 = .fail (.str "Network error")) := by
  refine ⟨?_, ?_, ?_, ?_⟩
  · intro d h
    simp [GEEApiClient.request, h]
  · intro rj st v h h1 h2
    simp [GEEApiClient.request, h, h1, h2]
  · intro rj st s h h1 hst hs
    cases hlk : rj.bind (Json.lookup · "error") with
    | none => simp [GEEApiClient.request, h, hlk, hst, statusFallback, hs]
    | some v =>
        have hv := h1 v hlk
        simp [GEEApiClient.request, h, hlk, hv, hst, statusFallback, hs]
  · intro rj st h h1 hst
    cases hlk : rj.bind (Json.lookup · "error") with
    | none =>
        rcases hst with h2 | h2 <;>
          simp [GEEApiClient.request, h, hlk, h2, statusFallback]
    | some v =>
        have hv := h1 v hlk
        rcases hst with h2 | h2 <;>
          simp [GEEApiClient.request, h, hlk, hv, h2, statusFallback]

/-- Witness for C1: a rejected call whose error body carries the truthy
field `"quota exceeded"` yields exactly that error string. -/
theorem C1_request_error_priority_witness :
    (GEEApiClient.request API_CONFIG
      (fun _ => .err (some (.obj [("error", .str "quota exceeded")])) (some "Bad Request"))
      "/health" W.init).1 = .fail (.str "quota exceeded") :=
  (C1_request_error_priority API_CONFIG
      (fun _ => .err (some (.obj [("error", .str "quota exceeded")])) (some "Bad Request"))
      "/health" W.init).2.1
    (some (.obj [("error", .str "quota exceeded")])) (some "Bad Request")
    (.str "quota exceeded") rfl rfl (by decide)

/-- C4: the transport wrapper performs exactly one network call per
invocation — the call counter advances by exactly one and exactly one
network-call event is emitted — and its behaviour is identical for every
value of the configured retry count (the `retries` field is never
consulted), so no retry is ever attempted. -/
theorem C4_single_call_no_retry (cfg : ApiConfig) (r : Nat)
    (outcomes : Nat → AjaxOutcome) (ep : String) (w : W) (htr : w.trace = []) :
    GEEApiClient.request { cfg with retries := r } outcomes ep w
      = GEEApiClient.request cfg outcomes ep w
    ∧ (GEEApiClient.request cfg outcomes ep w).2.calls = w.calls + 1
    ∧ ((GEEApiClient.request cfg outcomes ep w).2.trace.countP Event.isNetCall) = 1 := by
  refine ⟨?_, ?_, ?_⟩ <;>
    cases h : outcomes w.calls <;>
      simp [GEEApiClient.request, emit, h, htr, Event.isNetCall]

/-- Witness for C4 at a concrete configuration and outcome. -/
theorem C4_single_call_no_retry_witness :
    GEEApiClient.request { API_CONFIG with retries := 0 } (fun _ => .ok .null) "/health" W.init
      = GEEApiClient.request API_CONFIG (fun _ => .ok .null) "/health" W.init
    ∧ (GEEApiClient.request API_CONFIG (fun _ => .ok .null) "/health" W.init).2.calls
        = W.init.calls + 1
    ∧ ((GEEApiClient.request API_CONFIG (fun _ => .ok .null) "/health" W.init).2.trace.countP
        Event.isNetCall) = 1 :=
  C4_single_call_no_retry API_CONFIG 0 (fun _ => .ok .null) "/health" W.init rfl

/-- C3 counterexample: the claim covers every invocation of the five
listed orchestration operations and demands exactly one hide — "never
zero times".  An invocation of the vegetation analysis with no AOI selected
takes the precondition-abort path: it emits only the warning alert and
hides the loading indicator zero times. -/
theorem C3_counterexample :
    (runVegetationAnalysisAPI (envOf (fun _ => .ok (.obj [])) "combined") W.init).2.trace.countP
        Event.isHide = 0
    ∧ (runVegetationAnalysisAPI (envOf (fun _ => .ok (.obj [])) "combined") W.init).2.trace
        = [.alert "Please select an AOI first" "warning"] :=
  ⟨rfl, rfl⟩

/-- C3 (amended): every orchestration invocation that enters the Loading
state — province, city and region-geometry loading unconditionally, and
the two analysis operations whenever an AOI is selected — hides the
loading indicator exactly once, after the single network call and before
any success/failure-branch effect; precondition-aborted analysis
invocations never show the indicator and hide it zero times. -/
theorem C3_loading_hidden_once (env : Env) (w : W) (pcode ep code : String)
    (htr : w.trace = []) :
    hidesOnceAfterCall (loadProvincesFromAPI env w).2.trace = true
    ∧ hidesOnceAfterCall (loadCitiesFromAPI env pcode w).2.trace = true
    ∧ hidesOnceAfterCall (loadRegionGeometryFromAPI env ep code w).2.trace = true
    ∧ (w.currentAOI ≠ none →
        hidesOnceAfterCall (runVegetationAnalysisAPI env w).2.trace = true)
    ∧ (w.currentAOI ≠ none →
        hidesOnceAfterCall (runLandCoverAnalysisAPI env w).2.trace = true) := by
  refine ⟨?_, ?_, ?_, ?_, ?_⟩
  · cases h : env.outcomes w.calls with
    | ok d =>
        cases d <;>
          simp [loadProvincesFromAPI, GEEApiClient.request, emit, htr, h,
            hidesOnceAfterCall, Event.isHide]
    | err rj st =>
        simp [loadProvincesFromAPI, GEEApiClient.request, emit, htr, h,
          hidesOnceAfterCall, Event.isHide]
  · cases h : env.outcomes w.calls with
    | ok d =>
        cases d <;>
          simp [loadCitiesFromAPI, GEEApiClient.request, emit, htr, h,
            hidesOnceAfterCall, Event.isHide]
    | err rj st =>
        simp [loadCitiesFromAPI, GEEApiClient.request, emit, htr, h,
          hidesOnceAfterCall, Event.isHide]
  · cases h : env.outcomes w.calls with
    | ok d =>
        cases d <;>
          · simp only [loadRegionGeometryFromAPI, GEEApiClient.request, emit, htr, h]
            split <;> simp_all [hidesOnceAfterCall, Event.isHide, Json.truthy]
    | err rj st =>
        simp [loadRegionGeometryFromAPI, GEEApiClient.request, emit, htr, h,
          hidesOnceAfterCall, Event.isHide]
  · intro hne
    cases haoi : w.currentAOI with
    | none => exact absurd haoi hne
    | some a =>
        cases h : env.outcomes w.calls with
        | ok d =>
            cases d <;>
              simp [runVegetationAnalysisAPI, GEEApiClient.request, emit, htr, h, haoi,
                hidesOnceAfterCall, Event.isHide]
        | err rj st =>
            simp [runVegetationAnalysisAPI, GEEApiClient.request, emit, htr, h, haoi,
              hidesOnceAfterCall, Event.isHide]
  · intro hne
    cases haoi : w.currentAOI with
    | none => exact absurd haoi hne
    | some a =>
        cases h : env.outcomes w.calls with
        | ok d =>
            simp [runLandCoverAnalysisAPI, GEEApiClient.request, emit, htr, h, haoi,
              hidesOnceAfterCall, Event.isHide]
        | err rj st =>
            simp [runLandCoverAnalysisAPI, GEEApiClient.request, emit, htr, h, haoi,
              hidesOnceAfterCall, Event.isHide]

/-- Witness for C3 at a concrete environment, with an AOI selected so
the analysis-operation hypotheses are discharged. -/
theorem C3_loading_hidden_once_witness :
    hidesOnceAfterCall
        (runVegetationAnalysisAPI (envOf (fun _ => .ok (.obj [])) "combined") wAoi).2.trace = true
    ∧ hidesOnceAfterCall
        (runLandCoverAnalysisAPI (envOf (fun _ => .ok (.obj [])) "combined") wAoi).2.trace = true :=
  ⟨(C3_loading_hidden_once (envOf (fun _ => .ok (.obj [])) "combined") wAoi
      "63" "province" "63" rfl).2.2.2.1 (by simp [wAoi, W.init]),
   (C3_loading_hidden_once (envOf (fun _ => .ok (.obj [])) "combined") wAoi
      "63" "province" "63" rfl).2.2.2.2 (by simp [wAoi, W.init])⟩

/-- C7: with no AOI selected, each analysis operation (vegetation,
land cover, and the composite) emits exactly one warning alert, performs
no network call (the call counter is unchanged and the trace holds no
network event), and returns its safe fallback (`null` for the two
analyses; the composite produces no value). -/
theorem C7_missing_aoi_graceful (env : Env) (w : W)
    (haoi : w.currentAOI = none) (htr : w.trace = []) :
    ((runVegetationAnalysisAPI env w).1 = .ok none
      ∧ (runVegetationAnalysisAPI env w).2.trace
          = [.alert "Please select an AOI first" "warning"]
      ∧ (runVegetationAnalysisAPI env w).2.calls = w.calls)
    ∧ ((runLandCoverAnalysisAPI env w).1 = none
      ∧ (runLandCoverAnalysisAPI env w).2.trace
          = [.alert "Please select an AOI first" "warning"]
      ∧ (runLandCoverAnalysisAPI env w).2.calls = w.calls)
    ∧ ((runCompleteAnalysis env w).trace
          = [.alert "Please select an AOI first" "warning"]
      ∧ (runCompleteAnalysis env w).calls = w.calls) := by
  simp [runVegetationAnalysisAPI, runLandCoverAnalysisAPI, runCompleteAnalysis,
    haoi, htr, emit]

/-- Witness for C7 at a concrete environment and the initial world. -/
theorem C7_missing_aoi_graceful_witness :
    ((runVegetationAnalysisAPI (envOf (fun _ => .ok (.obj [])) "combined") W.init).1 = .ok none
      ∧ (runVegetationAnalysisAPI (envOf (fun _ => .ok (.obj [])) "combined") W.init).2.trace
          = [.alert "Please select an AOI first" "warning"]
      ∧ (runVegetationAnalysisAPI (envOf (fun _ => .ok (.obj [])) "combined") W.init).2.calls
          = W.init.calls)
    ∧ ((runLandCoverAnalysisAPI (envOf (fun _ => .ok (.obj [])) "combined") W.init).1 = none
      ∧ (runLandCoverAnalysisAPI (envOf (fun _ => .ok (.obj [])) "combined") W.init).2.trace
          = [.alert "Please select an AOI first" "warning"]
      ∧ (runLandCoverAnalysisAPI (envOf (fun _ => .ok (.obj [])) "combined") W.init).2.calls
          = W.init.calls)
    ∧ ((runCompleteAnalysis (envOf (fun _ => .ok (.obj [])) "combined") W.init).trace
          = [.alert "Please select an AOI first" "warning"]
      ∧ (runCompleteAnalysis (envOf (fun _ => .ok (.obj [])) "combined") W.init).calls
          = W.init.calls) :=
  C7_missing_aoi_graceful (envOf (fun _ => .ok (.obj [])) "combined") W.init rfl rfl

/-- C9: the download operation has the unstated precondition that an AOI
is selected — with `currentAOI` unset it throws a TypeError before any
observable effect (no alert of any severity, no download, world
unchanged), unlike the analysis operations' graceful warning path. -/
theorem C9_download_throws_without_aoi (env : Env) (w : W)
    (haoi : w.currentAOI = none) :
    downloadStatisticsReal env w = (.error "TypeError", w) := by
  simp [downloadStatisticsReal, haoi]

/-- Witness for C9 at a concrete environment and the initial world. -/
theorem C9_download_throws_without_aoi_witness :
    downloadStatisticsReal (envOf (fun _ => .ok .null) "combined") W.init
      = (.error "TypeError", W.init) :=
  C9_download_throws_without_aoi (envOf (fun _ => .ok .null) "combined") W.init rfl

/-- C10: when the region-geometry request fails, or succeeds with falsy
(empty) data, the operation returns `null`, leaves `currentAOI` and the
drawn layers exactly as they were, and never clears the existing layers. -/
theorem C10_geometry_failure_preserves_state (env : Env) (ep code : String) (w : W)
    (htr : w.trace = [])
    (hfail : (∃ rj st, env.outcomes w.calls = .err rj st)
      ∨ (∃ d, env.outcomes w.calls = .ok d ∧ d.truthy = false)) :
    (loadRegionGeometryFromAPI env ep code w).1 = none
    ∧ (loadRegionGeometryFromAPI env ep code w).2.currentAOI = w.currentAOI
    ∧ (loadRegionGeometryFromAPI env ep code w).2.layers = w.layers
    ∧ Event.clearLayers ∉ (loadRegionGeometryFromAPI env ep code w).2.trace := by
  rcases hfail with ⟨rj, st, h⟩ | ⟨d, h, hdt⟩
  · simp [loadRegionGeometryFromAPI, GEEApiClient.request, emit, htr, h]
  · simp [loadRegionGeometryFromAPI, GEEApiClient.request, emit, htr, h, hdt]

/-- Witness for C10: a timed-out request (no error body, no status text)
leaves the world's AOI and layers untouched. -/
theorem C10_geometry_failure_preserves_state_witness :
    (loadRegionGeometryFromAPI (envOf (fun _ => .err none none) "combined")
        "province" "63" wAoi).1 = none
    ∧ (loadRegionGeometryFromAPI (envOf (fun _ => .err none none) "combined")
        "province" "63" wAoi).2.currentAOI = wAoi.currentAOI
    ∧ (loadRegionGeometryFromAPI (envOf (fun _ => .err none none) "combined")
        "province" "63" wAoi).2.layers = wAoi.layers
    ∧ Event.clearLayers ∉ (loadRegionGeometryFromAPI (envOf (fun _ => .err none none) "combined")
        "province" "63" wAoi).2.trace :=
  C10_geometry_failure_preserves_state (envOf (fun _ => .err none none) "combined")
    "province" "63" wAoi rfl (Or.inl ⟨none, none, rfl⟩)

/-- C6: when the selected analysis type is `vegetation`, the composite
operation never calls the land-cover endpoint — the trace of a complete
run contains zero network calls to the land-cover URL, whatever the AOI
state and the network outcomes. -/
theorem C6_vegetation_only_no_landcover_call (env : Env) (w : W)
    (htr : w.trace = []) (hty : env.dom.analysisTypeVal = "vegetation") :
    (runCompleteAnalysis env w).trace.countP (Event.isCallTo landCoverUrl) = 0 := by
  cases haoi : w.currentAOI with
  | none =>
      simp [runCompleteAnalysis, haoi, htr, emit, Event.isCallTo]
  | some a =>
      cases h : env.outcomes w.calls with
      | ok d =>
          cases d <;>
            simp [runCompleteAnalysis, runVegetationAnalysisAPI, GEEApiClient.request,
              emit, haoi, hty, htr, h, Event.isCallTo, landCoverUrl, API_CONFIG,
              apply_ite
                (List.countP (Event.isCallTo "http://localhost:5000/api/analyze/landcover")),
              apply_ite W.trace, -List.countP_eq_zero]
      | err rj st =>
          simp [runCompleteAnalysis, runVegetationAnalysisAPI, GEEApiClient.request,
            emit, haoi, hty, htr, h, Event.isCallTo, landCoverUrl, API_CONFIG,
            apply_ite
              (List.countP (Event.isCallTo "http://localhost:5000/api/analyze/landcover")),
            apply_ite W.trace, -List.countP_eq_zero]

/-- Witness for C6 at a concrete environment with an AOI selected and a
successful vegetation response. -/
theorem C6_vegetation_only_no_landcover_call_witness :
    (runCompleteAnalysis
        (envOf (fun _ => .ok (.obj [("collection_size", .num 12)])) "vegetation")
        wAoi).trace.countP (Event.isCallTo landCoverUrl) = 0 :=
  C6_vegetation_only_no_landcover_call
    (envOf (fun _ => .ok (.obj [("collection_size", .num 12)])) "vegetation") wAoi rfl rfl

@[simp] theorem isCallTo_showLoading (u a b : String) :
    Event.isCallTo u (.showLoading a b) = false := rfl
@[simp] theorem isCallTo_hideLoading (u : String) :
    Event.isCallTo u .hideLoading = false := rfl
@[simp] theorem isCallTo_netCall (u v : String) :
    Event.isCallTo u (.netCall v) = (v == u) := rfl
@[simp] theorem isCallTo_alert (u a b : String) :
    Event.isCallTo u (.alert a b) = false := rfl
@[simp] theorem isCallTo_populateSelect (u a : String) :
    Event.isCallTo u (.populateSelect a) = false := rfl
@[simp] theorem isCallTo_clearLayers (u : String) :
    Event.isCallTo u .clearLayers = false := rfl
@[simp] theorem isCallTo_addLayer (u : String) :
    Event.isCallTo u .addLayer = false := rfl
@[simp] theorem isCallTo_fitBounds (u : String) :
    Event.isCallTo u .fitBounds = false := rfl
@[simp] theorem isCallTo_showAOIInfo (u : String) :
    Event.isCallTo u .showAOIInfo = false := rfl
@[simp] theorem isCallTo_displayResults (u : String) :
    Event.isCallTo u .displayResults = false := rfl
@[simp] theorem isCallTo_scrollToResults (u : String) :
    Event.isCallTo u .scrollToResults = false := rfl
@[simp] theorem isCallTo_download (u a : String) (c : Json) :
    Event.isCallTo u (.download a c) = false := rfl
@[simp] theorem isCallTo_consoleError (u a : String) :
    Event.isCallTo u (.consoleError a) = false := rfl

@[simp] theorem isHide_showLoading (a b : String) :
    Event.isHide (.showLoading a b) = false := rfl
@[simp] theorem isHide_hideLoading : Event.isHide .hideLoading = true := rfl
@[simp] theorem isHide_netCall (v : String) : Event.isHide (.netCall v) = false := rfl
@[simp] theorem isHide_alert (a b : String) : Event.isHide (.alert a b) = false := rfl
@[simp] theorem isHide_populateSelect (a : String) :
    Event.isHide (.populateSelect a) = false := rfl
@[simp] theorem isHide_clearLayers : Event.isHide .clearLayers = false := rfl
@[simp] theorem isHide_addLayer : Event.isHide .addLayer = false := rfl
@[simp] theorem isHide_fitBounds : Event.isHide .fitBounds = false := rfl
@[simp] theorem isHide_showAOIInfo : Event.isHide .showAOIInfo = false := rfl
@[simp] theorem isHide_displayResults : Event.isHide .displayResults = false := rfl
@[simp] theorem isHide_scrollToResults : Event.isHide .scrollToResults = false := rfl
@[simp] theorem isHide_download (a : String) (c : Json) :
    Event.isHide (.download a c) = false := rfl
@[simp] theorem isHide_consoleError (a : String) :
    Event.isHide (.consoleError a) = false := rfl

@[simp] theorem ite_currentAOI (c : Prop) [Decidable c] (w1 w2 : W) :
    (if c then w1 else w2).currentAOI
      = if c then w1.currentAOI else w2.currentAOI := apply_ite W.currentAOI c w1 w2

@[simp] theorem ite_analysisResults (c : Prop) [Decidable c] (w1 w2 : W) :
    (if c then w1 else w2).analysisResults
      = if c then w1.analysisResults else w2.analysisResults := apply_ite W.analysisResults c w1 w2

@[simp] theorem ite_layers (c : Prop) [Decidable c] (w1 w2 : W) :
    (if c then w1 else w2).layers
      = if c then w1.layers else w2.layers := apply_ite W.layers c w1 w2

@[simp] theorem ite_calls (c : Prop) [Decidable c] (w1 w2 : W) :
    (if c then w1 else w2).calls
      = if c then w1.calls else w2.calls := apply_ite W.calls c w1 w2

@[simp] theorem ite_trace (c : Prop) [Decidable c] (w1 w2 : W) :
    (if c then w1 else w2).trace
      = if c then w1.trace else w2.trace := apply_ite W.trace c w1 w2

@[simp] theorem ite_list_length (c : Prop) [Decidable c] {α : Type} (l1 l2 : List α) :
    (if c then l1 else l2).length
      = if c then l1.length else l2.length := apply_ite List.length c l1 l2

/-- C5: within the composite operation (type `combined`, AOI selected),
the vegetation sub-operation is fully resolved before the land-cover one
begins: strictly before the first network call to the land-cover URL the
trace contains exactly one vegetation call and exactly one hide of the
loading overlay (the vegetation request and its resolution), and from
the first land-cover call onward no vegetation call ever occurs. -/
theorem C5_vegetation_before_landcover (env : Env) (w : W) (a : AOI)
    (htr : w.trace = []) (haoi : w.currentAOI = some a)
    (hty : env.dom.analysisTypeVal = "combined") :
    ((runCompleteAnalysis env w).trace.takeWhile
        (fun e => !Event.isCallTo landCoverUrl e)).countP (Event.isCallTo vegetationUrl) = 1
    ∧ ((runCompleteAnalysis env w).trace.takeWhile
        (fun e => !Event.isCallTo landCoverUrl e)).countP Event.isHide = 1
    ∧ ((runCompleteAnalysis env w).trace.dropWhile
        (fun e => !Event.isCallTo landCoverUrl e)).countP (Event.isCallTo vegetationUrl) = 0 := by
  refine ⟨?_, ?_, ?_⟩ <;>
  · cases h0 : env.outcomes w.calls with
    | ok d =>
        cases h1 : env.outcomes (w.calls + 1) with
        | ok d2 =>
            cases d <;>
              simp [runCompleteAnalysis, runVegetationAnalysisAPI, runLandCoverAnalysisAPI,
                GEEApiClient.request, emit, haoi, hty, htr, h0, h1, Json.truthy,
                landCoverUrl, vegetationUrl, API_CONFIG,
                apply_ite W.trace, apply_ite W.currentAOI, apply_ite W.calls,
                apply_ite W.analysisResults, apply_ite W.layers, apply_ite List.length,
                apply_ite
                  (List.takeWhile (fun e => !Event.isCallTo "http://localhost:5000/api/analyze/landcover" e)),
                apply_ite
                  (List.dropWhile (fun e => !Event.isCallTo "http://localhost:5000/api/analyze/landcover" e)),
                apply_ite
                  (List.countP (Event.isCallTo "http://localhost:5000/api/analyze/vegetation")),
                apply_ite (List.countP Event.isHide),
                -List.countP_eq_zero]
        | err rj st =>
            cases d <;>
              simp [runCompleteAnalysis, runVegetationAnalysisAPI, runLandCoverAnalysisAPI,
                GEEApiClient.request, emit, haoi, hty, htr, h0, h1, Json.truthy,
                landCoverUrl, vegetationUrl, API_CONFIG,
                apply_ite W.trace, apply_ite W.currentAOI, apply_ite W.calls,
                apply_ite W.analysisResults, apply_ite W.layers, apply_ite List.length,
                apply_ite
                  (List.takeWhile (fun e => !Event.isCallTo "http://localhost:5000/api/analyze/landcover" e)),
                apply_ite
                  (List.dropWhile (fun e => !Event.isCallTo "http://localhost:5000/api/analyze/landcover" e)),
                apply_ite
                  (List.countP (Event.isCallTo "http://localhost:5000/api/analyze/vegetation")),
                apply_ite (List.countP Event.isHide),
                -List.countP_eq_zero]
    | err rj st =>
        cases h1 : env.outcomes (w.calls + 1) with
        | ok d2 =>
            simp [runCompleteAnalysis, runVegetationAnalysisAPI, runLandCoverAnalysisAPI,
              GEEApiClient.request, emit, haoi, hty, htr, h0, h1, Json.truthy,
              landCoverUrl, vegetationUrl, API_CONFIG,
              apply_ite W.trace, apply_ite W.currentAOI, apply_ite W.calls,
              apply_ite W.analysisResults, apply_ite W.layers, apply_ite List.length,
              apply_ite
                (List.takeWhile (fun e => !Event.isCallTo "http://localhost:5000/api/analyze/landcover" e)),
              apply_ite
                (List.dropWhile (fun e => !Event.isCallTo "http://localhost:5000/api/analyze/landcover" e)),
              apply_ite
                (List.countP (Event.isCallTo "http://localhost:5000/api/analyze/vegetation")),
              apply_ite (List.countP Event.isHide),
              -List.countP_eq_zero]
        | err rj2 st2 =>
            simp [runCompleteAnalysis, runVegetationAnalysisAPI, runLandCoverAnalysisAPI,
              GEEApiClient.request, emit, haoi, hty, htr, h0, h1, Json.truthy,
              landCoverUrl, vegetationUrl, API_CONFIG,
              apply_ite W.trace, apply_ite W.currentAOI, apply_ite W.calls,
              apply_ite W.analysisResults, apply_ite W.layers, apply_ite List.length,
              apply_ite
                (List.takeWhile (fun e => !Event.isCallTo "http://localhost:5000/api/analyze/landcover" e)),
              apply_ite
                (List.dropWhile (fun e => !Event.isCallTo "http://localhost:5000/api/analyze/landcover" e)),
              apply_ite
                (List.countP (Event.isCallTo "http://localhost:5000/api/analyze/vegetation")),
              apply_ite (List.countP Event.isHide),
              -List.countP_eq_zero]

/-- Witness for C5 at a concrete environment: combined analysis with an
AOI selected and successful responses for both sub-operations. -/
theorem C5_vegetation_before_landcover_witness :
    ((runCompleteAnalysis (envOf (fun _ => .ok (.obj [("collection_size", .num 5)])) "combined")
        wAoi).trace.takeWhile
        (fun e => !Event.isCallTo landCoverUrl e)).countP (Event.isCallTo vegetationUrl) = 1
    ∧ ((runCompleteAnalysis (envOf (fun _ => .ok (.obj [("collection_size", .num 5)])) "combined")
        wAoi).trace.takeWhile
        (fun e => !Event.isCallTo landCoverUrl e)).countP Event.isHide = 1
    ∧ ((runCompleteAnalysis (envOf (fun _ => .ok (.obj [("collection_size", .num 5)])) "combined")
        wAoi).trace.dropWhile
        (fun e => !Event.isCallTo landCoverUrl e)).countP (Event.isCallTo vegetationUrl) = 0 :=
  C5_vegetation_before_landcover
    (envOf (fun _ => .ok (.obj [("collection_size", .num 5)])) "combined") wAoi aoiEx rfl rfl rfl

/-- C2: for the composite operation with type `combined` and an AOI
selected: (1) when the vegetation call succeeds with truthy data and the
land-cover call fails, the accumulator still holds exactly the three
vegetation keys and the results are displayed; (2) results are displayed
exactly when at least one sub-operation succeeded, i.e. ran to completion
and returned truthy data (a vegetation response of JSON `null` throws
inside the sub-operation, so the land-cover call never runs and nothing
is displayed); (3)-(4) each sub-operation's truthy result is kept in the
accumulator regardless of what the other sub-operation did. -/
theorem C2_combined_partial_results (env : Env) (w : W) (a : AOI)
    (htr : w.trace = []) (haoi : w.currentAOI = some a)
    (hty : env.dom.analysisTypeVal = "combined") :
    (∀ d rj st, env.outcomes w.calls = .ok d → d.truthy = true →
        env.outcomes (w.calls + 1) = .err rj st →
        (runCompleteAnalysis env w).analysisResults
          = [("vegetation", d.lookup "indices"),
             ("rgb_tile_url", d.lookup "rgb_tile_url"),
             ("collection_size", d.lookup "collection_size")]
        ∧ Event.displayResults ∈ (runCompleteAnalysis env w).trace)
    ∧ (Event.displayResults ∈ (runCompleteAnalysis env w).trace ↔
        ((∃ d, env.outcomes w.calls = .ok d ∧ d.truthy = true)
          ∨ (env.outcomes w.calls ≠ .ok .null
              ∧ ∃ d, env.outcomes (w.calls + 1) = .ok d ∧ d.truthy = true)))
    ∧ (∀ d, env.outcomes w.calls = .ok d → d.truthy = true →
        ("vegetation", d.lookup "indices") ∈ (runCompleteAnalysis env w).analysisResults)
    ∧ (∀ d, env.outcomes w.calls ≠ .ok .null →
        env.outcomes (w.calls + 1) = .ok d → d.truthy = true →
        ("landcover", some d) ∈ (runCompleteAnalysis env w).analysisResults) := by
  refine ⟨?_, ?_, ?_, ?_⟩
  · intro d rj st h0 hd h1
    cases d <;> simp [Json.truthy] at hd <;>
      simp [runCompleteAnalysis, runVegetationAnalysisAPI, runLandCoverAnalysisAPI,
        GEEApiClient.request, emit, haoi, hty, htr, h0, h1, hd, Json.truthy]
  · cases h0 : env.outcomes w.calls with
    | ok d =>
        cases h1 : env.outcomes (w.calls + 1) with
        | ok d2 =>
            cases d <;>
              · simp [runCompleteAnalysis, runVegetationAnalysisAPI, runLandCoverAnalysisAPI,
                  GEEApiClient.request, emit, haoi, hty, htr, h0, h1, Json.truthy]
                try (split <;> simp_all)
                try (split <;> simp_all)
        | err rj st =>
            cases d <;>
              · simp [runCompleteAnalysis, runVegetationAnalysisAPI, runLandCoverAnalysisAPI,
                  GEEApiClient.request, emit, haoi, hty, htr, h0, h1, Json.truthy]
                try (split <;> simp_all)
                try (split <;> simp_all)
    | err rj st =>
        cases h1 : env.outcomes (w.calls + 1) with
        | ok d2 =>
            simp [runCompleteAnalysis, runVegetationAnalysisAPI, runLandCoverAnalysisAPI,
              GEEApiClient.request, emit, haoi, hty, htr, h0, h1, Json.truthy]
            try (split <;> simp_all)
            try (split <;> simp_all)
        | err rj2 st2 =>
            simp [runCompleteAnalysis, runVegetationAnalysisAPI, runLandCoverAnalysisAPI,
              GEEApiClient.request, emit, haoi, hty, htr, h0, h1, Json.truthy]
            try (split <;> simp_all)
            try (split <;> simp_all)
  · intro d h0 hd
    cases d <;> simp [Json.truthy] at hd <;>
      simp [runCompleteAnalysis, runVegetationAnalysisAPI, runLandCoverAnalysisAPI,
        GEEApiClient.request, emit, haoi, hty, htr, h0, hd, Json.truthy] <;>
      cases h1 : env.outcomes (w.calls + 1) <;>
        simp [runLandCoverAnalysisAPI, GEEApiClient.request, emit, h1] <;>
        try (split <;> simp_all)
  · intro d hne h1 hd
    cases h0 : env.outcomes w.calls with
    | ok dv =>
        cases dv with
        | null => exact absurd h0 hne
        | bool b =>
            simp [runCompleteAnalysis, runVegetationAnalysisAPI, runLandCoverAnalysisAPI,
              GEEApiClient.request, emit, haoi, hty, htr, h0, h1, hd] <;>
            try (split <;> simp_all [Json.truthy]) <;> try (split <;> simp_all [Json.truthy])
        | num n =>
            simp [runCompleteAnalysis, runVegetationAnalysisAPI, runLandCoverAnalysisAPI,
              GEEApiClient.request, emit, haoi, hty, htr, h0, h1, hd] <;>
            try (split <;> simp_all [Json.truthy]) <;> try (split <;> simp_all [Json.truthy])
        | str sv =>
            simp [runCompleteAnalysis, runVegetationAnalysisAPI, runLandCoverAnalysisAPI,
              GEEApiClient.request, emit, haoi, hty, htr, h0, h1, hd] <;>
            try (split <;> simp_all [Json.truthy]) <;> try (split <;> simp_all [Json.truthy])
        | arr l =>
            simp [runCompleteAnalysis, runVegetationAnalysisAPI, runLandCoverAnalysisAPI,
              GEEApiClient.request, emit, haoi, hty, htr, h0, h1, hd, Json.truthy] <;>
            try (split <;> simp_all [Json.truthy]) <;> try (split <;> simp_all [Json.truthy])
        | obj f =>
            simp [runCompleteAnalysis, runVegetationAnalysisAPI, runLandCoverAnalysisAPI,
              GEEApiClient.request, emit, haoi, hty, htr, h0, h1, hd, Json.truthy] <;>
            try (split <;> simp_all [Json.truthy]) <;> try (split <;> simp_all [Json.truthy])
    | err rj st =>
        simp [runCompleteAnalysis, runVegetationAnalysisAPI, runLandCoverAnalysisAPI,
          GEEApiClient.request, emit, haoi, hty, htr, h0, h1, hd] <;>
        try (split <;> simp_all [Json.truthy]) <;> try (split <;> simp_all [Json.truthy])

/-- Witness for C2's main scenario: combined analysis, successful truthy
vegetation response, failing land-cover request — the vegetation result
is kept and results are displayed. -/
theorem C2_combined_partial_results_witness :
    (runCompleteAnalysis
        (envOf (fun n => if n = 0 then .ok (.obj [("collection_size", .num 7)])
          else .err (some (.obj [("error", .str "boom")])) (some "Server Error")) "combined")
        wAoi).analysisResults
      = [("vegetation", (Json.obj [("collection_size", Json.num 7)]).lookup "indices"),
         ("rgb_tile_url", (Json.obj [("collection_size", Json.num 7)]).lookup "rgb_tile_url"),
         ("collection_size", (Json.obj [("collection_size", Json.num 7)]).lookup "collection_size")]
    ∧ Event.displayResults ∈ (runCompleteAnalysis
        (envOf (fun n => if n = 0 then .ok (.obj [("collection_size", .num 7)])
          else .err (some (.obj [("error", .str "boom")])) (some "Server Error")) "combined")
        wAoi).trace :=
  (C2_combined_partial_results
      (envOf (fun n => if n = 0 then .ok (.obj [("collection_size", .num 7)])
        else .err (some (.obj [("error", .str "boom")])) (some "Server Error")) "combined")
      wAoi aoiEx rfl rfl rfl).1
    (.obj [("collection_size", .num 7)])
    (some (.obj [("error", .str "boom")])) (some "Server Error") rfl rfl rfl

/-- Inside a whitespace run with the underscore already produced, the
rest of the run is skipped; scanning resumes at the first non-whitespace
character. -/
theorem replaceWsGo_skip (run ys : List Char)
    (hrun : ∀ c ∈ run, isJsWhitespace c = true)
    (hys : ∀ c, ys.head? = some c → isJsWhitespace c = false) :
    replaceWsGo true (run ++ ys) = replaceWsGo false ys := by
  induction run with
  | nil =>
      cases ys with
      | nil => rfl
      | cons y ys2 =>
          have hy := hys y rfl
          simp [replaceWsGo, hy]
  | cons c cs ih =>
      have hc := hrun c (by simp)
      simp only [List.cons_append, replaceWsGo, hc, if_true]
      exact ih (fun c2 h2 => hrun c2 (by simp [h2]))

/-- Each maximal whitespace run collapses to a single underscore:
non-whitespace prefix kept, one underscore for the run, scan resumes
after it. -/
theorem replaceWsGo_run (xs run ys : List Char)
    (hxs : ∀ c ∈ xs, isJsWhitespace c = false)
    (hrun0 : run ≠ []) (hrun : ∀ c ∈ run, isJsWhitespace c = true)
    (hys : ∀ c, ys.head? = some c → isJsWhitespace c = false) :
    replaceWsGo false (xs ++ run ++ ys) = xs ++ '_' :: replaceWsGo false ys := by
  induction xs with
  | nil =>
      cases run with
      | nil => exact absurd rfl hrun0
      | cons c cs =>
          have hc := hrun c (by simp)
          have hskip := replaceWsGo_skip cs ys (fun c2 h2 => hrun c2 (by simp [h2])) hys
          simp [replaceWsGo, hc, hskip]
  | cons x xs2 ih =>
      have hx := hxs x (by simp)
      have ih2 := ih (fun c2 h2 => hxs c2 (by simp [h2]))
      rw [List.append_assoc] at ih2
      simp [replaceWsGo, hx, ih2]

/-- C8: with an AOI selected, the download operation emits a download of
a statistics object whose `region` field is exactly the AOI name at
download time, under the filename `gee_analysis_` + the AOI name with
whitespace runs replaced (each maximal run becoming a single underscore,
per the accompanying general property of `replaceWsRuns`) + `_` + the
epoch milliseconds + `.json`. -/
theorem C8_download_roundtrip_filename (env : Env) (w : W) (a : AOI)
    (haoi : w.currentAOI = some a) (htr : w.trace = []) :
    (∃ stats : Json,
      (downloadStatisticsReal env w).2.trace
        = [.download ("gee_analysis_" ++ replaceWsRuns a.name ++ "_"
              ++ toString env.nowMillis ++ ".json") stats,
           .alert "Statistics downloaded successfully!" "success"]
      ∧ stats.lookup "region" = some (.str a.name))
    ∧ (∀ xs run ys : List Char,
        (∀ c ∈ xs, isJsWhitespace c = false) →
        run ≠ [] → (∀ c ∈ run, isJsWhitespace c = true) →
        (∀ c, ys.head? = some c → isJsWhitespace c = false) →
        replaceWsRuns ⟨xs ++ run ++ ys⟩ = ⟨xs ++ '_' :: replaceWsGo false ys⟩) := by
  constructor
  · exact ⟨Json.obj
      [("analysis_date", .str env.nowIso),
       ("region", .str a.name),
       ("area_km2", .num a.area),
       ("year", .str env.dom.yearText),
       ("analysis_type", .str env.dom.analysisTypeVal),
       ("parameters", .obj
         [("date_range", .obj
           [("start_month", .str env.dom.startMonthVal),
            ("end_month", .str env.dom.endMonthVal)]),
          ("cloud_threshold", .str env.dom.cloudText)]),
       ("results", .obj (w.analysisResults.filterMap
         (fun kv => kv.2.map (fun v => (kv.1, v)))))],
      by simp [downloadStatisticsReal, haoi, htr, emit],
      by simp [Json.lookup, List.lookup]⟩
  · intro xs run ys h1 h2 h3 h4
    show String.mk (replaceWsGo false (xs ++ run ++ ys)) = String.mk (xs ++ '_' :: replaceWsGo false ys)
    exact congrArg String.mk (replaceWsGo_run xs run ys h1 h2 h3 h4)

/-- Witness for C8 at a concrete environment and a selected AOI. -/
theorem C8_download_roundtrip_filename_witness :
    (∃ stats : Json,
      (downloadStatisticsReal (envOf (fun _ => .ok .null) "combined") wAoi).2.trace
        = [.download ("gee_analysis_" ++ replaceWsRuns aoiEx.name ++ "_"
              ++ toString (envOf (fun _ => .ok .null) "combined").nowMillis ++ ".json") stats,
           .alert "Statistics downloaded successfully!" "success"]
      ∧ stats.lookup "region" = some (.str aoiEx.name))
    ∧ (∀ xs run ys : List Char,
        (∀ c ∈ xs, isJsWhitespace c = false) →
        run ≠ [] → (∀ c ∈ run, isJsWhitespace c = true) →
        (∀ c, ys.head? = some c → isJsWhitespace c = false) →
        replaceWsRuns ⟨xs ++ run ++ ys⟩ = ⟨xs ++ '_' :: replaceWsGo false ys⟩) :=
  C8_download_roundtrip_filename (envOf (fun _ => .ok .null) "combined") wAoi aoiEx rfl rfl
